import Mathlib

set_option maxRecDepth 100000

/-!
Shallow embedding of the FAQ generation/validation pipeline:
`_parse_response` of `BankingFAQGenerator` (generate_faqs.py) and of
`BatchFAQGenerator` (batch_generator.py), the batch scheduling loop of
`generate_category_batched`, and `FAQValidator` (validate_data.py).
JSON values decoded by the external `json.loads` are modelled by `JVal`;
the decoder itself is an explicit function parameter. Python dictionaries
are association lists with insertion-order semantics. A Python exception
escaping a modelled operation is `Except.error ()`.
String primitives (`strip`, `split`, `startswith`, `endswith`, `lower`,
slicing, substring tests) are modelled by structural recursion over the
character list, matching Python's semantics character by character.
-/

/-- A decoded JSON value (`json.loads` output). Integral numbers only:
no claim involves fractional payloads. -/
inductive JVal where
  | str (s : String)
  | num (n : Int)
  | bool (b : Bool)
  | null
  | list (xs : List JVal)
  | obj (fields : List (String × JVal))

/-- A Python dict with string keys, as produced for one FAQ record. -/
abbrev PyDict := List (String × JVal)

/-- `d[k]` lookup: first binding of the key. -/
def dlookup (key : String) : PyDict → Option JVal
  | [] => none
  | (k, v) :: rest => if k = key then some v else dlookup key rest

/-- `d[k] = v`: replace the existing binding in place, else append. -/
def dset (d : PyDict) (key : String) (v : JVal) : PyDict :=
  match d with
  | [] => [(key, v)]
  | (k, w) :: rest => if k = key then (k, v) :: rest else (k, w) :: dset rest key v

/-- `d.setdefault(k, v)`: append the binding only when the key is absent. -/
def dsetdefault (d : PyDict) (key : String) (v : JVal) : PyDict :=
  match dlookup key d with
  | some _ => d
  | none => d ++ [(key, v)]

/-- Python truthiness of a decoded value (`not faq[field]` tests). -/
def truthy : JVal → Bool
  | .str s => !s.data.isEmpty
  | .num n => n != 0
  | .bool b => b
  | .null => false
  | .list xs => !xs.isEmpty
  | .obj fs => !fs.isEmpty

/-! ## String primitives -/

/-- `s.strip()`: drop whitespace from both ends. -/
def py_strip (s : String) : String :=
  String.mk (((s.data.dropWhile Char.isWhitespace).reverse.dropWhile
    Char.isWhitespace).reverse)

/-- `needle in text` on character lists. -/
def contains_sub (needle : List Char) : List Char → Bool
  | [] => needle.isEmpty
  | c :: rest => needle.isPrefixOf (c :: rest) || contains_sub needle rest

/-- `needle in text` on strings. -/
def strContains (text needle : String) : Bool :=
  contains_sub needle.data text.data

/-- `s.startswith(p)`. -/
def starts_with (s p : String) : Bool := p.data.isPrefixOf s.data

/-- `s.endswith(p)`. -/
def ends_with (s p : String) : Bool := p.data.isSuffixOf s.data

/-- `s[n:]` for a non-negative index. -/
def str_drop (s : String) (n : Nat) : String := String.mk (s.data.drop n)

/-- `s.lower()`. -/
def str_lower (s : String) : String := String.mk (s.data.map Char.toLower)

/-- `text.split('```')` on the character list: fragments between
non-overlapping occurrences of three backticks, scanned left to right. -/
def split_ticks : List Char → List Char → List (List Char)
  | [], cur => [cur.reverse]
  | '`' :: '`' :: '`' :: rest, cur => cur.reverse :: split_ticks rest []
  | c :: rest, cur => split_ticks rest (c :: cur)

/-- `text.split('```')` on strings. -/
def split_on_ticks (s : String) : List String :=
  (split_ticks s.data []).map String.mk

/-- `key in container` for the element checks in the parsers: defined on
dicts (key lookup), strings (substring) and lists (membership, where a
string key equals an equal string element only); any other operand raises
`TypeError`. -/
def py_contains_key (container : JVal) (key : String) : Except Unit Bool :=
  match container with
  | .obj fs => .ok (dlookup key fs).isSome
  | .str s => .ok (strContains s key)
  | .list xs => .ok (xs.any fun x => match x with | .str s => s = key | _ => false)
  | _ => .error ()

/-! ## RecordParser: `BankingFAQGenerator._parse_response` (generate_faqs.py) -/

/-- The fence-scanning loop of `BankingFAQGenerator._parse_response`:
the first fragment that, stripped, starts with the `json` language tag
(that tag dropped, the rest stripped) or starts with `[` or `{`. -/
def pick_fenced_part : List String → Option String
  | [] => none
  | part :: rest =>
    let p := py_strip part
    if starts_with p "json" then some (py_strip (str_drop p 4))
    else if starts_with p "[" || starts_with p "\x7b" then some p
    else pick_fenced_part rest

/-- Text handed to `json.loads` by `BankingFAQGenerator._parse_response`:
strip, then if a ``` delimiter occurs, scan the fragments; when no
fragment matches, the text is left as the whole stripped response. -/
def banking_extract_json (raw : String) : String :=
  let text := py_strip raw
  if strContains text "```" then
    match pick_fenced_part (split_on_ticks text) with
    | some t => t
    | none => text
  else text

/-- `isinstance(faqs, dict)` wrapping plus Python iteration over the decoded
value: a dict becomes a one-element sequence, a list iterates its elements,
a string iterates its characters, anything else raises `TypeError`. -/
def faqs_to_elems : JVal → Except Unit (List JVal)
  | .obj fs => .ok [.obj fs]
  | .list xs => .ok xs
  | .str s => .ok (s.data.map fun c => JVal.str (String.mk [c]))
  | _ => .error ()

/-- The mutation sequence of the cleaning loop: overwrite `category`
unconditionally, then `setdefault` the four optional fields. -/
def banking_fill (fs : PyDict) (category : String) : PyDict :=
  dsetdefault (dsetdefault (dsetdefault (dsetdefault
    (dset fs "category" (JVal.str category))
    "keywords" (JVal.list []))
    "difficulty" (JVal.str "basic"))
    "segment" (JVal.str "retail"))
    "subcategory" (JVal.str category)

/-- The per-element body of the cleaning loop: keep the element when both
keys are present, after overwriting `category` and filling the defaults;
skip it otherwise. A kept element that is not a dict raises `TypeError`
at the `faq['category'] = category` assignment. -/
def banking_clean_elem (category : String) (e : JVal) : Except Unit (Option PyDict) :=
  match py_contains_key e "question" with
  | .error u => .error u
  | .ok false => .ok none
  | .ok true =>
    match py_contains_key e "answer" with
    | .error u => .error u
    | .ok false => .ok none
    | .ok true =>
      match e with
      | .obj fs => .ok (some (banking_fill fs category))
      | _ => .error ()

def banking_clean_elems (category : String) : List JVal → Except Unit (List PyDict)
  | [] => .ok []
  | e :: rest =>
    match banking_clean_elem category e with
    | .error u => .error u
    | .ok none => banking_clean_elems category rest
    | .ok (some r) =>
      match banking_clean_elems category rest with
      | .error u => .error u
      | .ok rs => .ok (r :: rs)

/-- `BankingFAQGenerator._parse_response`, with `json.loads` passed in as
`decode`. Decode failure and any exception in the cleaning loop are both
swallowed by the `except` handlers: the function always returns a list. -/
def banking_parse_response (decode : String → Option JVal)
    (raw category : String) : List PyDict :=
  match decode (banking_extract_json raw) with
  | none => []
  | some v =>
    match faqs_to_elems v with
    | .error _ => []
    | .ok elems =>
      match banking_clean_elems category elems with
      | .error _ => []
      | .ok recs => recs

/-! ## RecordParser: `BatchFAQGenerator._parse_response` (batch_generator.py) -/

/-- Text handed to `json.loads` by `BatchFAQGenerator._parse_response`:
strip; when a ``` delimiter occurs take the second fragment, dropping a
leading `json` tag unstripped; strip again. -/
def batch_extract_json (raw : String) : String :=
  let text := py_strip raw
  let text2 :=
    match split_on_ticks text with
    | _ :: second :: _ => if starts_with second "json" then str_drop second 4 else second
    | _ => text
  py_strip text2

/-- The per-element loop of `BatchFAQGenerator._parse_response`: every
element gets `category` assigned; a non-dict element raises `TypeError`
(caught by the bare `except`), and no question/answer filtering happens. -/
def batch_clean_elems (category : String) : List JVal → Except Unit (List PyDict)
  | [] => .ok []
  | e :: rest =>
    match e with
    | .obj fs =>
      match batch_clean_elems category rest with
      | .error u => .error u
      | .ok rs => .ok (dset fs "category" (JVal.str category) :: rs)
    | _ => .error ()

/-- `BatchFAQGenerator._parse_response` with `json.loads` as `decode`. -/
def batch_parse_response (decode : String → Option JVal)
    (raw category : String) : List PyDict :=
  match decode (batch_extract_json raw) with
  | none => []
  | some v =>
    match faqs_to_elems v with
    | .error _ => []
    | .ok elems =>
      match batch_clean_elems category elems with
      | .error _ => []
      | .ok recs => recs

/-! ## BatchScheduler: `BatchFAQGenerator.generate_category_batched` -/

/-- The `(batch_num, num_batches)` arguments of the `generate_batch` calls
issued by `generate_category_batched`, in issue order:
`num_batches = (total_count + batch_size - 1) // batch_size` and
`batch_num` runs over `range(1, num_batches + 1)`. -/
def generate_category_batched_calls (batch_size total_count : Nat) : List (Nat × Nat) :=
  let num_batches := (total_count + batch_size - 1) / batch_size
  (List.range num_batches).map fun i => (i + 1, num_batches)

/-! ## QualityValidator: `FAQValidator` (validate_data.py) -/

def REQUIRED_FIELDS : List String := ["question", "answer", "category"]
def VALID_DIFFICULTIES : List String := ["basic", "intermediate", "advanced"]
def VALID_SEGMENTS : List String := ["retail", "business", "wealth_management"]
def MIN_QUESTION_LENGTH : Nat := 10
def MAX_QUESTION_LENGTH : Nat := 500
def MIN_ANSWER_LENGTH : Nat := 100
def MAX_ANSWER_LENGTH : Nat := 2000
def MIN_KEYWORDS : Nat := 1
def MAX_KEYWORDS : Nat := 10

/-- `str(value)` as used by the f-string interpolation in the error
messages: exact for the scalar values; containers are abbreviated, which
matters to no claim (the messages compared in theorems interpolate
strings only). -/
def JVal.pyStr : JVal → String
  | .str s => s
  | .num n => toString n
  | .bool true => "True"
  | .bool false => "False"
  | .null => "None"
  | .list _ => "<list>"
  | .obj _ => "<dict>"

/-- `value.strip()`: defined on strings, `AttributeError` otherwise. -/
def strip_attr : JVal → Except Unit String
  | .str s => .ok (py_strip s)
  | _ => .error ()

/-! ### `FAQValidator._has_repetitive_content` -/

/-- A sentence-terminal character of the `[.!?]+` pattern. -/
def isSentTerm (c : Char) : Bool := c == '.' || c == '!' || c == '?'

/-- Worker for `re.split(r'[.!?]+', text)`: `sep` records that the previous
character was part of a separator run still being consumed. -/
def re_split_go : List Char → List Char → Bool → List String
  | [], cur, _ => [String.mk cur.reverse]
  | c :: rest, cur, sep =>
    if isSentTerm c then
      if sep then re_split_go rest [] true
      else String.mk cur.reverse :: re_split_go rest [] true
    else re_split_go rest (c :: cur) false

/-- `re.split(r'[.!?]+', text)`: fragments between maximal runs of
sentence-terminal punctuation, empty fragments at the ends included. -/
def re_split_sentences (text : String) : List String :=
  re_split_go text.data [] false

/-- The keys of `Counter(s.strip().lower() for s in sentences if s.strip())`,
one occurrence per contributing fragment. -/
def normalized_sentences (sentences : List String) : List String :=
  (sentences.filter fun s => !(py_strip s).data.isEmpty).map fun s =>
    str_lower (py_strip s)

/-- `max(sentence_counts.values()) if sentence_counts else 0`. -/
def max_sentence_count (sentences : List String) : Nat :=
  let normed := normalized_sentences sentences
  (normed.map fun s => normed.countP fun t => decide (t = s)).foldr max 0

/-- `FAQValidator._has_repetitive_content` at the default threshold:
`max_count / len(sentences) > 0.3`. The comparison is stated exactly over
the integers (`10 * max_count > 3 * len`); the source's float evaluation
agrees with it for every fragment count below `10 ^ 15`. -/
def has_repetitive_content (text : String) : Bool :=
  let sentences := re_split_sentences text
  if sentences.length < 3 then false
  else decide (10 * max_sentence_count sentences > 3 * sentences.length)

/-! ### `FAQValidator.validate_single_faq` -/

def msg_missing (idx : Nat) (field : String) : String :=
  "FAQ #" ++ toString idx ++ ": Missing required field \x27" ++ field ++ "\x27"

def msg_q_short (idx n : Nat) : String :=
  "FAQ #" ++ toString idx ++ ": Question too short (" ++ toString n ++ " chars)"

def msg_q_long (idx n : Nat) : String :=
  "FAQ #" ++ toString idx ++ ": Question too long (" ++ toString n ++ " chars)"

def msg_no_qmark (idx : Nat) : String :=
  "FAQ #" ++ toString idx ++ ": Question doesn\x27t end with \x27?\x27"

def msg_a_short (idx n : Nat) : String :=
  "FAQ #" ++ toString idx ++ ": Answer too short (" ++ toString n ++ " chars)"

def msg_a_long (idx n : Nat) : String :=
  "FAQ #" ++ toString idx ++ ": Answer too long (" ++ toString n ++ " chars)"

def msg_kw_not_list (idx : Nat) : String :=
  "FAQ #" ++ toString idx ++ ": Keywords must be a list"

def msg_kw_few (idx n : Nat) : String :=
  "FAQ #" ++ toString idx ++ ": Too few keywords (" ++ toString n ++ ")"

def msg_kw_many (idx n : Nat) : String :=
  "FAQ #" ++ toString idx ++ ": Too many keywords (" ++ toString n ++ ")"

def msg_bad_difficulty (idx : Nat) (v : JVal) : String :=
  "FAQ #" ++ toString idx ++ ": Invalid difficulty \x27" ++ v.pyStr ++ "\x27"

def msg_bad_segment (idx : Nat) (v : JVal) : String :=
  "FAQ #" ++ toString idx ++ ": Invalid segment \x27" ++ v.pyStr ++ "\x27"

def msg_repetitive (idx : Nat) : String :=
  "FAQ #" ++ toString idx ++ ": Answer may have repetitive content"

/-- The required-field loop: one error per field that is absent or falsy. -/
def required_field_errors (idx : Nat) (faq : PyDict) : List String :=
  REQUIRED_FIELDS.filterMap fun field =>
    match dlookup field faq with
    | none => some (msg_missing idx field)
    | some v => if truthy v then none else some (msg_missing idx field)

def question_length_warnings (idx : Nat) (question : String) : List String :=
  if question.length < MIN_QUESTION_LENGTH then [msg_q_short idx question.length]
  else if question.length > MAX_QUESTION_LENGTH then [msg_q_long idx question.length]
  else []

def question_mark_warnings (idx : Nat) (question : String) : List String :=
  if ends_with question "?" then [] else [msg_no_qmark idx]

def answer_length_warnings (idx : Nat) (answer : String) : List String :=
  if answer.length < MIN_ANSWER_LENGTH then [msg_a_short idx answer.length]
  else if answer.length > MAX_ANSWER_LENGTH then [msg_a_long idx answer.length]
  else []

/-- The keywords block: `(errors, warnings)` it appends. -/
def keywords_check (idx : Nat) (faq : PyDict) : List String × List String :=
  match dlookup "keywords" faq with
  | none => ([], [])
  | some (.list ks) =>
    if ks.length < MIN_KEYWORDS then ([], [msg_kw_few idx ks.length])
    else if ks.length > MAX_KEYWORDS then ([], [msg_kw_many idx ks.length])
    else ([], [])
  | some _ => ([msg_kw_not_list idx], [])

/-- Python `faq['difficulty'] not in VALID_DIFFICULTIES`, negated: a value
equals a member of a list of strings only when it is that string. -/
def is_valid_difficulty (v : JVal) : Bool :=
  match v with
  | .str s => VALID_DIFFICULTIES.contains s
  | _ => false

def is_valid_segment (v : JVal) : Bool :=
  match v with
  | .str s => VALID_SEGMENTS.contains s
  | _ => false

def difficulty_errors (idx : Nat) (faq : PyDict) : List String :=
  match dlookup "difficulty" faq with
  | none => []
  | some v => if is_valid_difficulty v then [] else [msg_bad_difficulty idx v]

def segment_errors (idx : Nat) (faq : PyDict) : List String :=
  match dlookup "segment" faq with
  | none => []
  | some v => if is_valid_segment v then [] else [msg_bad_segment idx v]

def repetitive_warnings (idx : Nat) (answer : String) : List String :=
  if has_repetitive_content answer then [msg_repetitive idx] else []

/-- What one `validate_single_faq` call returns and appends: every
warning append in the source is paired with a `stats['warnings']`
increment, so that count is `warns.length`. -/
structure SingleResult where
  isValid : Bool
  errs : List String
  warns : List String
deriving DecidableEq, Repr

/-- `FAQValidator.validate_single_faq`: the required-field loop first, with
an early `return False` that skips every later check; then the question,
answer, keywords, difficulty, segment and repetition checks in source
order. `faq['question'].strip()` on a non-string raises (`Except.error`). -/
def validate_single_faq (faq : PyDict) (idx : Nat) : Except Unit SingleResult :=
  let reqErrs := required_field_errors idx faq
  if !reqErrs.isEmpty then .ok ⟨false, reqErrs, []⟩
  else
    match dlookup "question" faq with
    | none => .error ()
    | some qv =>
      match strip_attr qv with
      | .error u => .error u
      | .ok question =>
        match dlookup "answer" faq with
        | none => .error ()
        | some av =>
          match strip_attr av with
          | .error u => .error u
          | .ok answer =>
            let kw := keywords_check idx faq
            let diffErrs := difficulty_errors idx faq
            let segErrs := segment_errors idx faq
            .ok ⟨kw.1.isEmpty && diffErrs.isEmpty && segErrs.isEmpty,
                 kw.1 ++ diffErrs ++ segErrs,
                 question_length_warnings idx question
                   ++ question_mark_warnings idx question
                   ++ answer_length_warnings idx answer
                   ++ kw.2
                   ++ repetitive_warnings idx answer⟩

/-! ### `FAQValidator.validate_faqs` -/

/-- The `self.stats` dict. -/
structure VStats where
  total : Nat
  valid : Nat
  invalid : Nat
  warnings : Nat
deriving DecidableEq, Repr

/-- The mutable validator instance: `self.errors`, `self.warnings`,
`self.stats` as set up by `FAQValidator.__init__`. -/
structure ValidatorState where
  errors : List String
  warnings : List String
  stats : VStats
deriving DecidableEq, Repr

def init_validator_state : ValidatorState := ⟨[], [], ⟨0, 0, 0, 0⟩⟩

/-- Folding one record's result into the instance state: appends and the
valid/invalid/warnings tallies of the loop body of `validate_faqs`. -/
def apply_single (st : ValidatorState) (r : SingleResult) : ValidatorState :=
  { errors := st.errors ++ r.errs
    warnings := st.warnings ++ r.warns
    stats := { total := st.stats.total
               valid := st.stats.valid + (if r.isValid then 1 else 0)
               invalid := st.stats.invalid + (if r.isValid then 0 else 1)
               warnings := st.stats.warnings + r.warns.length } }

/-- The `for idx, faq in enumerate(faqs, 1)` loop; an uncaught exception
from a record aborts the whole run. -/
def validate_faqs_go : List PyDict → Nat → ValidatorState → Except Unit ValidatorState
  | [], _, st => .ok st
  | faq :: rest, idx, st =>
    match validate_single_faq faq idx with
    | .error u => .error u
    | .ok r => validate_faqs_go rest (idx + 1) (apply_single st r)

/-- `FAQValidator.validate_faqs` on an instance in state `st`: set
`stats['total']`, run the loop, return `invalid == 0` with the final
instance state. -/
def validate_faqs (st : ValidatorState) (faqs : List PyDict) :
    Except Unit (Bool × ValidatorState) :=
  let st0 : ValidatorState := { st with stats := { st.stats with total := faqs.length } }
  match validate_faqs_go faqs 1 st0 with
  | .error u => .error u
  | .ok st1 => .ok (decide (st1.stats.invalid = 0), st1)

/-- The spec's structural contract, stated from its words: required fields
present and non-empty (Python truthiness), `keywords` a sequence when
present, `difficulty` and `segment` in their enumerated sets when
present. -/
def spec_structural_ok (faq : PyDict) : Bool :=
  (REQUIRED_FIELDS.all fun f =>
    match dlookup f faq with
    | some v => truthy v
    | none => false) &&
  (match dlookup "keywords" faq with
   | none => true
   | some (.list _) => true
   | some _ => false) &&
  (match dlookup "difficulty" faq with
   | none => true
   | some v => is_valid_difficulty v) &&
  (match dlookup "segment" faq with
   | none => true
   | some v => is_valid_segment v)

/-- The per-record results of the loop, independent of the instance state. -/
def validate_deltas : List PyDict → Nat → Except Unit (List SingleResult)
  | [], _ => .ok []
  | faq :: rest, idx =>
    match validate_single_faq faq idx with
    | .error u => .error u
    | .ok r =>
      match validate_deltas rest (idx + 1) with
      | .error u => .error u
      | .ok rs => .ok (r :: rs)

/-! ## Concrete inputs used in scenario and counterexample theorems -/

/-- A 150-character answer (no sentence punctuation, no edge whitespace). -/
def ans150 : String := String.mk (List.replicate 150 'a')

/-- A 100-character answer. -/
def ans100 : String := String.mk (List.replicate 100 'a')

/-- A 99-character answer. -/
def ans99 : String := String.mk (List.replicate 99 'a')

/-- A record with no question, a valid category and an invalid difficulty. -/
def c1_faq : PyDict :=
  [("answer", JVal.str ans150), ("category", JVal.str "Loans"),
   ("difficulty", JVal.str "extreme")]

/-- A decoder yielding one element whose question is the empty string. -/
def c2_decode : String → Option JVal := fun _ =>
  some (JVal.list [JVal.obj [("question", JVal.str ""), ("answer", JVal.str "A")]])

/-- What the banking parser makes of that element. -/
def c2_record : PyDict :=
  [("question", JVal.str ""), ("answer", JVal.str "A"), ("category", JVal.str "Cat"),
   ("keywords", JVal.list []), ("difficulty", JVal.str "basic"),
   ("segment", JVal.str "retail"), ("subcategory", JVal.str "Cat")]

/-- A decoder yielding one well-formed question/answer element. -/
def c5_decode : String → Option JVal := fun _ =>
  some (JVal.list [JVal.obj [("question", JVal.str "Q?"), ("answer", JVal.str "An")]])

/-- The record of the C6 scenario: parser output for
`[{"question": "What is APR?", "answer": <150 chars>, "difficulty": "extreme"}]`
under category `Loans`. -/
def c6_faq : PyDict :=
  [("question", JVal.str "What is APR?"), ("answer", JVal.str ans150),
   ("difficulty", JVal.str "extreme"), ("category", JVal.str "Loans")]

/-- An answer of five sentences, one repeated four times. -/
def c7_repeated : String :=
  "Same sentence here. Same sentence here. Same sentence here. Same sentence here. A different one."

/-- An answer of five distinct sentences. -/
def c7_distinct : String :=
  "One two. Three four. Five six. Seven eight. Nine ten."

/-- A structurally valid, warning-free record. -/
def c8_faq : PyDict :=
  [("question", JVal.str "What is APR?"), ("answer", JVal.str ans150),
   ("category", JVal.str "Loans")]

/-- A warning-free record whose stripped answer has exactly 100 characters. -/
def c9_faq100 : PyDict :=
  [("question", JVal.str "What is a mortgage rate?"), ("answer", JVal.str ans100),
   ("category", JVal.str "Loans")]

/-- The same record with a 99-character answer. -/
def c9_faq99 : PyDict :=
  [("question", JVal.str "What is a mortgage rate?"), ("answer", JVal.str ans99),
   ("category", JVal.str "Loans")]

/-- A decoder yielding one element whose question and answer are numbers. -/
def c10_decode : String → Option JVal := fun _ =>
  some (JVal.list [JVal.obj [("question", JVal.num 5), ("answer", JVal.num 7)]])

/-- What the banking parser makes of that element: kept, numbers intact. -/
def c10_record : PyDict :=
  [("question", JVal.num 5), ("answer", JVal.num 7), ("category", JVal.str "Cards"),
   ("keywords", JVal.list []), ("difficulty", JVal.str "basic"),
   ("segment", JVal.str "retail"), ("subcategory", JVal.str "Cards")]

/-! ## Dictionary lemmas -/

theorem dlookup_dset_self (d : PyDict) (k : String) (v : JVal) :
    dlookup k (dset d k v) = some v := by
  induction d with
  | nil => simp [dset, dlookup]
  | cons hd tl ih =>
    obtain ⟨k2, w⟩ := hd
    by_cases h : k2 = k
    · simp [dset, dlookup, h]
    · simp [dset, dlookup, h, ih]

theorem dlookup_dset_ne (d : PyDict) (k k2 : String) (v : JVal) (h : k ≠ k2) :
    dlookup k (dset d k2 v) = dlookup k d := by
  induction d with
  | nil => simp [dset, dlookup, Ne.symm h]
  | cons hd tl ih =>
    obtain ⟨k3, w⟩ := hd
    by_cases h3 : k3 = k2
    · subst h3
      simp [dset, dlookup, Ne.symm h]
    · by_cases h4 : k3 = k
      · simp [dset, dlookup, h3, h4, h]
      · simp [dset, dlookup, h3, h4, ih]

theorem dlookup_append (d e : PyDict) (k : String) :
    dlookup k (d ++ e) =
      match dlookup k d with
      | some v => some v
      | none => dlookup k e := by
  induction d with
  | nil => simp [dlookup]
  | cons hd tl ih =>
    obtain ⟨k2, w⟩ := hd
    by_cases h : k2 = k
    · simp [dlookup, h]
    · simp [dlookup, h, ih]

theorem dlookup_dsetdefault_self (d : PyDict) (k : String) (v : JVal) :
    dlookup k (dsetdefault d k v) = some ((dlookup k d).getD v) := by
  unfold dsetdefault
  cases h : dlookup k d with
  | some w => simp [h]
  | none => simp [dlookup_append, h, dlookup]

theorem dlookup_dsetdefault_ne (d : PyDict) (k k2 : String) (v : JVal) (h : k ≠ k2) :
    dlookup k (dsetdefault d k2 v) = dlookup k d := by
  unfold dsetdefault
  cases h2 : dlookup k2 d with
  | some w => simp
  | none =>
    rw [dlookup_append]
    cases h3 : dlookup k d with
    | some w => simp
    | none => simp [dlookup, Ne.symm h]

/-! ## `banking_fill` field lemmas -/

theorem banking_fill_category (fs : PyDict) (c : String) :
    dlookup "category" (banking_fill fs c) = some (JVal.str c) := by
  unfold banking_fill
  rw [dlookup_dsetdefault_ne _ _ _ _ (by decide), dlookup_dsetdefault_ne _ _ _ _ (by decide),
    dlookup_dsetdefault_ne _ _ _ _ (by decide), dlookup_dsetdefault_ne _ _ _ _ (by decide),
    dlookup_dset_self]

theorem banking_fill_keywords (fs : PyDict) (c : String) :
    dlookup "keywords" (banking_fill fs c) =
      some ((dlookup "keywords" fs).getD (JVal.list [])) := by
  unfold banking_fill
  rw [dlookup_dsetdefault_ne _ _ _ _ (by decide), dlookup_dsetdefault_ne _ _ _ _ (by decide),
    dlookup_dsetdefault_ne _ _ _ _ (by decide), dlookup_dsetdefault_self,
    dlookup_dset_ne _ _ _ _ (by decide)]

theorem banking_fill_difficulty (fs : PyDict) (c : String) :
    dlookup "difficulty" (banking_fill fs c) =
      some ((dlookup "difficulty" fs).getD (JVal.str "basic")) := by
  unfold banking_fill
  rw [dlookup_dsetdefault_ne _ _ _ _ (by decide), dlookup_dsetdefault_ne _ _ _ _ (by decide),
    dlookup_dsetdefault_self, dlookup_dsetdefault_ne _ _ _ _ (by decide),
    dlookup_dset_ne _ _ _ _ (by decide)]

theorem banking_fill_segment (fs : PyDict) (c : String) :
    dlookup "segment" (banking_fill fs c) =
      some ((dlookup "segment" fs).getD (JVal.str "retail")) := by
  unfold banking_fill
  rw [dlookup_dsetdefault_ne _ _ _ _ (by decide), dlookup_dsetdefault_self,
    dlookup_dsetdefault_ne _ _ _ _ (by decide), dlookup_dsetdefault_ne _ _ _ _ (by decide),
    dlookup_dset_ne _ _ _ _ (by decide)]

theorem banking_fill_subcategory (fs : PyDict) (c : String) :
    dlookup "subcategory" (banking_fill fs c) =
      some ((dlookup "subcategory" fs).getD (JVal.str c)) := by
  unfold banking_fill
  rw [dlookup_dsetdefault_self, dlookup_dsetdefault_ne _ _ _ _ (by decide),
    dlookup_dsetdefault_ne _ _ _ _ (by decide), dlookup_dsetdefault_ne _ _ _ _ (by decide),
    dlookup_dset_ne _ _ _ _ (by decide)]

theorem banking_fill_question (fs : PyDict) (c : String) :
    dlookup "question" (banking_fill fs c) = dlookup "question" fs := by
  unfold banking_fill
  rw [dlookup_dsetdefault_ne _ _ _ _ (by decide), dlookup_dsetdefault_ne _ _ _ _ (by decide),
    dlookup_dsetdefault_ne _ _ _ _ (by decide), dlookup_dsetdefault_ne _ _ _ _ (by decide),
    dlookup_dset_ne _ _ _ _ (by decide)]

theorem banking_fill_answer (fs : PyDict) (c : String) :
    dlookup "answer" (banking_fill fs c) = dlookup "answer" fs := by
  unfold banking_fill
  rw [dlookup_dsetdefault_ne _ _ _ _ (by decide), dlookup_dsetdefault_ne _ _ _ _ (by decide),
    dlookup_dsetdefault_ne _ _ _ _ (by decide), dlookup_dsetdefault_ne _ _ _ _ (by decide),
    dlookup_dset_ne _ _ _ _ (by decide)]

/-! ## Validator characterization -/

theorem req_field_point (idx : Nat) (faq : PyDict) (f : String) :
    (match dlookup f faq with
     | none => some (msg_missing idx f)
     | some v => if truthy v then none else some (msg_missing idx f)) = none
    ↔ (match dlookup f faq with | some v => truthy v | none => false) = true := by
  cases h : dlookup f faq with
  | none => simp
  | some v => cases ht : truthy v <;> simp [ht]

theorem required_field_errors_eq_nil_iff (idx : Nat) (faq : PyDict) :
    required_field_errors idx faq = [] ↔
      (REQUIRED_FIELDS.all fun f =>
        match dlookup f faq with
        | some v => truthy v
        | none => false) = true := by
  unfold required_field_errors
  rw [List.filterMap_eq_nil_iff, List.all_eq_true]
  constructor
  · intro H f hf
    exact (req_field_point idx faq f).1 (H f hf)
  · intro H f hf
    exact (req_field_point idx faq f).2 (H f hf)

theorem validate_single_faq_req_fail (faq : PyDict) (idx : Nat)
    (h : required_field_errors idx faq ≠ []) :
    validate_single_faq faq idx = .ok ⟨false, required_field_errors idx faq, []⟩ := by
  unfold validate_single_faq
  cases hl : required_field_errors idx faq with
  | nil => exact absurd hl h
  | cons e es => simp [List.isEmpty]

theorem validate_single_faq_of_str (faq : PyDict) (idx : Nat) (q a : String)
    (hreq : required_field_errors idx faq = [])
    (hq : dlookup "question" faq = some (JVal.str q))
    (ha : dlookup "answer" faq = some (JVal.str a)) :
    validate_single_faq faq idx =
      .ok ⟨(keywords_check idx faq).1.isEmpty && (difficulty_errors idx faq).isEmpty
             && (segment_errors idx faq).isEmpty,
           (keywords_check idx faq).1 ++ difficulty_errors idx faq ++ segment_errors idx faq,
           question_length_warnings idx (py_strip q)
             ++ question_mark_warnings idx (py_strip q)
             ++ answer_length_warnings idx (py_strip a)
             ++ (keywords_check idx faq).2
             ++ repetitive_warnings idx (py_strip a)⟩ := by
  unfold validate_single_faq
  simp [hreq, hq, ha, strip_attr, List.isEmpty]

theorem validate_single_faq_strip_error (faq : PyDict) (idx : Nat) (qv : JVal)
    (hreq : required_field_errors idx faq = [])
    (hqv : dlookup "question" faq = some qv)
    (hs : strip_attr qv = .error ()) :
    validate_single_faq faq idx = .error () := by
  unfold validate_single_faq
  simp [hreq, hqv, hs, List.isEmpty]

theorem strip_attr_str (s : String) : strip_attr (JVal.str s) = .ok (py_strip s) := rfl

theorem validate_single_faq_strip_error2 (faq : PyDict) (idx : Nat) (q : String) (av : JVal)
    (hreq : required_field_errors idx faq = [])
    (hq : dlookup "question" faq = some (JVal.str q))
    (hav : dlookup "answer" faq = some av)
    (hs : strip_attr av = .error ()) :
    validate_single_faq faq idx = .error () := by
  unfold validate_single_faq
  simp [hreq, hq, hav, hs, strip_attr_str, List.isEmpty]

theorem keywords_errs_isEmpty (idx : Nat) (faq : PyDict) :
    (keywords_check idx faq).1.isEmpty =
      (match dlookup "keywords" faq with
       | none => true
       | some (.list _) => true
       | some _ => false) := by
  unfold keywords_check
  cases h : dlookup "keywords" faq with
  | none => rfl
  | some v =>
    cases v with
    | list ks =>
      by_cases h1 : ks.length < MIN_KEYWORDS
      · simp [h1]
      · by_cases h2 : ks.length > MAX_KEYWORDS <;> simp [h1, h2]
    | str s => rfl
    | num n => rfl
    | bool b => rfl
    | null => rfl
    | obj fs => rfl

theorem difficulty_errs_isEmpty (idx : Nat) (faq : PyDict) :
    (difficulty_errors idx faq).isEmpty =
      (match dlookup "difficulty" faq with
       | none => true
       | some v => is_valid_difficulty v) := by
  unfold difficulty_errors
  cases h : dlookup "difficulty" faq with
  | none => rfl
  | some v => cases hv : is_valid_difficulty v <;> simp [hv]

theorem segment_errs_isEmpty (idx : Nat) (faq : PyDict) :
    (segment_errors idx faq).isEmpty =
      (match dlookup "segment" faq with
       | none => true
       | some v => is_valid_segment v) := by
  unfold segment_errors
  cases h : dlookup "segment" faq with
  | none => rfl
  | some v => cases hv : is_valid_segment v <;> simp [hv]

/-- On every record for which `validate_single_faq` returns without raising,
the returned flag is exactly the spec's structural contract. -/
theorem validate_single_faq_isValid (faq : PyDict) (idx : Nat) (r : SingleResult)
    (h : validate_single_faq faq idx = .ok r) :
    r.isValid = spec_structural_ok faq := by
  by_cases hreq : required_field_errors idx faq = []
  · have hall := (required_field_errors_eq_nil_iff idx faq).1 hreq
    have hall' := List.all_eq_true.1 hall
    have hq0 := hall' "question" (by simp [REQUIRED_FIELDS])
    have ha0 := hall' "answer" (by simp [REQUIRED_FIELDS])
    cases hqv : dlookup "question" faq with
    | none => rw [hqv] at hq0; simp at hq0
    | some qv =>
      cases qv with
      | str q =>
        cases hav : dlookup "answer" faq with
        | none => rw [hav] at ha0; simp at ha0
        | some av =>
          cases av with
          | str a =>
            rw [validate_single_faq_of_str faq idx q a hreq hqv hav] at h
            cases h
            show ((keywords_check idx faq).1.isEmpty && (difficulty_errors idx faq).isEmpty
              && (segment_errors idx faq).isEmpty) = spec_structural_ok faq
            rw [keywords_errs_isEmpty, difficulty_errs_isEmpty, segment_errs_isEmpty]
            unfold spec_structural_ok
            rw [hall]
            simp [Bool.and_assoc]
          | num n =>
            rw [validate_single_faq_strip_error2 faq idx q (.num n) hreq hqv hav rfl] at h
            cases h
          | bool b =>
            rw [validate_single_faq_strip_error2 faq idx q (.bool b) hreq hqv hav rfl] at h
            cases h
          | null =>
            rw [validate_single_faq_strip_error2 faq idx q .null hreq hqv hav rfl] at h
            cases h
          | list xs =>
            rw [validate_single_faq_strip_error2 faq idx q (.list xs) hreq hqv hav rfl] at h
            cases h
          | obj fs =>
            rw [validate_single_faq_strip_error2 faq idx q (.obj fs) hreq hqv hav rfl] at h
            cases h
      | num n =>
        rw [validate_single_faq_strip_error faq idx (.num n) hreq hqv rfl] at h; cases h
      | bool b =>
        rw [validate_single_faq_strip_error faq idx (.bool b) hreq hqv rfl] at h; cases h
      | null =>
        rw [validate_single_faq_strip_error faq idx .null hreq hqv rfl] at h; cases h
      | list xs =>
        rw [validate_single_faq_strip_error faq idx (.list xs) hreq hqv rfl] at h; cases h
      | obj fs =>
        rw [validate_single_faq_strip_error faq idx (.obj fs) hreq hqv rfl] at h; cases h
  · rw [validate_single_faq_req_fail faq idx hreq] at h
    cases h
    have hall : (REQUIRED_FIELDS.all fun f =>
        match dlookup f faq with
        | some v => truthy v
        | none => false) = false := by
      cases hh : (REQUIRED_FIELDS.all fun f =>
          match dlookup f faq with
          | some v => truthy v
          | none => false) with
      | false => rfl
      | true => exact absurd ((required_field_errors_eq_nil_iff idx faq).2 hh) hreq
    show false = spec_structural_ok faq
    unfold spec_structural_ok
    rw [hall]
    simp

/-! ## The loop as a state-independent delta sequence -/

theorem validate_faqs_go_eq_deltas (faqs : List PyDict) (idx : Nat) (st : ValidatorState) :
    validate_faqs_go faqs idx st =
      (validate_deltas faqs idx).map fun rs => rs.foldl apply_single st := by
  induction faqs generalizing idx st with
  | nil => rfl
  | cons faq rest ih =>
    unfold validate_faqs_go validate_deltas
    cases validate_single_faq faq idx with
    | error u => rfl
    | ok r =>
      dsimp only
      rw [ih (idx + 1) (apply_single st r)]
      cases validate_deltas rest (idx + 1) with
      | error u => rfl
      | ok rs => rfl

theorem foldl_apply_single_errors (rs : List SingleResult) (st : ValidatorState) :
    (rs.foldl apply_single st).errors = st.errors ++ (rs.map SingleResult.errs).flatten := by
  induction rs generalizing st with
  | nil => simp
  | cons r rest ih => simp [ih, apply_single, List.append_assoc]

theorem foldl_apply_single_warnings (rs : List SingleResult) (st : ValidatorState) :
    (rs.foldl apply_single st).warnings =
      st.warnings ++ (rs.map SingleResult.warns).flatten := by
  induction rs generalizing st with
  | nil => simp
  | cons r rest ih => simp [ih, apply_single, List.append_assoc]

theorem foldl_apply_single_total (rs : List SingleResult) (st : ValidatorState) :
    (rs.foldl apply_single st).stats.total = st.stats.total := by
  induction rs generalizing st with
  | nil => rfl
  | cons r rest ih => simp [ih, apply_single]

theorem foldl_apply_single_valid (rs : List SingleResult) (st : ValidatorState) :
    (rs.foldl apply_single st).stats.valid =
      st.stats.valid + rs.countP SingleResult.isValid := by
  induction rs generalizing st with
  | nil => simp
  | cons r rest ih =>
    rw [List.foldl_cons, ih, List.countP_cons]
    cases hr : r.isValid <;> simp [apply_single, hr] <;> omega

theorem foldl_apply_single_invalid (rs : List SingleResult) (st : ValidatorState) :
    (rs.foldl apply_single st).stats.invalid =
      st.stats.invalid + rs.countP fun r => !r.isValid := by
  induction rs generalizing st with
  | nil => simp
  | cons r rest ih =>
    rw [List.foldl_cons, ih, List.countP_cons]
    cases hr : r.isValid <;> simp [apply_single, hr] <;> omega

theorem foldl_apply_single_warncount (rs : List SingleResult) (st : ValidatorState) :
    (rs.foldl apply_single st).stats.warnings =
      st.stats.warnings + ((rs.map fun r => r.warns.length).sum) := by
  induction rs generalizing st with
  | nil => simp
  | cons r rest ih => simp [ih, apply_single]; omega

/-- Each delta's flag is the spec contract of its record. -/
theorem validate_deltas_isValid (faqs : List PyDict) (idx : Nat) (rs : List SingleResult)
    (h : validate_deltas faqs idx = .ok rs) :
    rs.countP SingleResult.isValid = faqs.countP spec_structural_ok ∧
    (rs.countP fun r => !r.isValid) = faqs.countP (fun f => !spec_structural_ok f) ∧
    rs.length = faqs.length := by
  induction faqs generalizing idx rs with
  | nil =>
    cases h
    simp
  | cons faq rest ih =>
    unfold validate_deltas at h
    cases hr : validate_single_faq faq idx with
    | error u => rw [hr] at h; cases h
    | ok r =>
      rw [hr] at h
      cases hrest : validate_deltas rest (idx + 1) with
      | error u => rw [hrest] at h; cases h
      | ok rs2 =>
        rw [hrest] at h
        cases h
        obtain ⟨ih1, ih2, ih3⟩ := ih (idx + 1) rs2 hrest
        have hv := validate_single_faq_isValid faq idx r hr
        refine ⟨?_, ?_, ?_⟩
        · rw [List.countP_cons, List.countP_cons, ih1, hv]
        · rw [List.countP_cons, List.countP_cons, ih2, hv]
        · simp [ih3]

/-! ## Parser lemmas -/

/-- A kept element of the cleaning loop is a dict carrying both keys, and
the record is its filled form. -/
theorem banking_clean_elem_some (cat : String) (e : JVal) (r0 : PyDict)
    (h : banking_clean_elem cat e = .ok (some r0)) :
    ∃ fs, e = JVal.obj fs ∧ (dlookup "question" fs).isSome = true ∧
      (dlookup "answer" fs).isSome = true ∧ r0 = banking_fill fs cat := by
  cases e with
  | obj fs =>
    cases hq : (dlookup "question" fs).isSome with
    | false => simp [banking_clean_elem, py_contains_key, hq] at h
    | true =>
      cases ha : (dlookup "answer" fs).isSome with
      | false => simp [banking_clean_elem, py_contains_key, hq, ha] at h
      | true =>
        simp [banking_clean_elem, py_contains_key, hq, ha] at h
        exact ⟨fs, rfl, hq, ha, h.symm⟩
  | str s =>
    exfalso
    by_cases h1 : strContains s "question" <;> by_cases h2 : strContains s "answer" <;>
      simp [banking_clean_elem, py_contains_key, h1, h2] at h
  | list xs =>
    exfalso
    by_cases h1 : (xs.any fun x => match x with | .str s => s = "question" | _ => false) <;>
      by_cases h2 : (xs.any fun x => match x with | .str s => s = "answer" | _ => false) <;>
      simp [banking_clean_elem, py_contains_key, h1, h2] at h
  | num n => simp [banking_clean_elem, py_contains_key] at h
  | bool b => simp [banking_clean_elem, py_contains_key] at h
  | null => simp [banking_clean_elem, py_contains_key] at h

/-- Every record produced by the cleaning loop carries both keys. -/
theorem banking_clean_elems_keys (cat : String) (elems : List JVal) (recs : List PyDict)
    (h : banking_clean_elems cat elems = .ok recs) :
    ∀ r ∈ recs, (dlookup "question" r).isSome = true ∧ (dlookup "answer" r).isSome = true := by
  induction elems generalizing recs with
  | nil =>
    cases h
    intro r hr
    cases hr
  | cons e rest ih =>
    unfold banking_clean_elems at h
    cases he : banking_clean_elem cat e with
    | error u => rw [he] at h; cases h
    | ok o =>
      rw [he] at h
      cases o with
      | none => exact ih recs h
      | some r0 =>
        cases hrest : banking_clean_elems cat rest with
        | error u => rw [hrest] at h; cases h
        | ok rs =>
          rw [hrest] at h
          cases h
          intro r hr
          cases hr with
          | head =>
            obtain ⟨fs, _, hq, ha, hr0⟩ := banking_clean_elem_some cat e r0 he
            rw [hr0, banking_fill_question, banking_fill_answer]
            exact ⟨hq, ha⟩
          | tail _ hmem => exact ih rs hrest r hmem

/-- When every element is a dict with both keys, the cleaning loop keeps
them all, in order, as their filled forms. -/
theorem banking_clean_elems_all (cat : String) (elems : List JVal)
    (hall : ∀ e ∈ elems, ∃ fs, e = JVal.obj fs ∧ (dlookup "question" fs).isSome = true ∧
      (dlookup "answer" fs).isSome = true) :
    ∃ recs, banking_clean_elems cat elems = .ok recs ∧
      List.Forall₂ (fun e r => ∃ fs, e = JVal.obj fs ∧ r = banking_fill fs cat)
        elems recs := by
  induction elems with
  | nil => exact ⟨[], rfl, List.Forall₂.nil⟩
  | cons e rest ih =>
    obtain ⟨fs, he, hq, ha⟩ := hall e (List.mem_cons_self e rest)
    obtain ⟨recs, hrecs, hf⟩ := ih fun x hx => hall x (List.mem_cons_of_mem e hx)
    subst he
    have helem : banking_clean_elem cat (JVal.obj fs) = .ok (some (banking_fill fs cat)) := by
      simp [banking_clean_elem, py_contains_key, hq, ha]
    refine ⟨banking_fill fs cat :: recs, ?_, List.Forall₂.cons ⟨fs, rfl, rfl⟩ hf⟩
    unfold banking_clean_elems
    rw [helem, hrecs]

/-! ## Claims -/

/-- C1 counterexample: the record `c1_faq` violates the difficulty rule
(`extreme` is outside the enumerated set), yet because its required field
`question` is missing, `validate_single_faq` returns only the missing-field
error — the difficulty violation never reaches the report, contradicting
the claim that every violation of the record appears. -/
theorem C1_counterexample :
    difficulty_errors 1 c1_faq = ["FAQ #1: Invalid difficulty \x27extreme\x27"] ∧
    validate_single_faq c1_faq 1 =
      .ok ⟨false, ["FAQ #1: Missing required field \x27question\x27"], []⟩ ∧
    "FAQ #1: Invalid difficulty \x27extreme\x27" ∉
      ["FAQ #1: Missing required field \x27question\x27"] := by
  refine ⟨rfl, rfl, ?_⟩
  decide

/-- C1 (amended): once the required-field gate passes, the remaining
structural checks (keywords, difficulty, segment) and the heuristic
warnings all run and each contributes independently to the record's error
and warning lists; but when a required field is missing or empty, the
record's validation returns early with only the required-field errors and
every later check is skipped. -/
theorem C1_theorem :
    (∀ (faq : PyDict) (idx : Nat), required_field_errors idx faq ≠ [] →
      validate_single_faq faq idx = .ok ⟨false, required_field_errors idx faq, []⟩) ∧
    (∀ (faq : PyDict) (idx : Nat) (q a : String),
      required_field_errors idx faq = [] →
      dlookup "question" faq = some (JVal.str q) →
      dlookup "answer" faq = some (JVal.str a) →
      validate_single_faq faq idx =
        .ok ⟨(keywords_check idx faq).1.isEmpty && (difficulty_errors idx faq).isEmpty
               && (segment_errors idx faq).isEmpty,
             (keywords_check idx faq).1 ++ difficulty_errors idx faq
               ++ segment_errors idx faq,
             question_length_warnings idx (py_strip q)
               ++ question_mark_warnings idx (py_strip q)
               ++ answer_length_warnings idx (py_strip a)
               ++ (keywords_check idx faq).2
               ++ repetitive_warnings idx (py_strip a)⟩) :=
  ⟨fun faq idx h => validate_single_faq_req_fail faq idx h,
   fun faq idx q a h1 h2 h3 => validate_single_faq_of_str faq idx q a h1 h2 h3⟩

/-- C2 counterexample: a decoded element whose `question` value is the
empty string is not discarded — the banking parser returns a record whose
`question` is empty, contradicting the claim that such elements are
dropped. -/
theorem C2_counterexample :
    banking_parse_response c2_decode "x" "Cat" = [c2_record] ∧
    dlookup "question" c2_record = some (JVal.str "") := ⟨rfl, rfl⟩

/-- C2 (amended): the banking parser checks only key presence — every
record it returns has `question` and `answer` keys present, but values are
not checked for emptiness (and the batch parser filters nothing), so
empty-valued records pass through. -/
theorem C2_theorem :
    (∀ (decode : String → Option JVal) (raw cat : String) (r : PyDict),
      r ∈ banking_parse_response decode raw cat →
      (dlookup "question" r).isSome = true ∧ (dlookup "answer" r).isSome = true) ∧
    batch_parse_response (fun _ => some (JVal.list [JVal.obj [("x", JVal.null)]]))
      "x" "Cat" = [[("x", JVal.null), ("category", JVal.str "Cat")]] := by
  refine ⟨?_, rfl⟩
  intro decode raw cat r hr
  unfold banking_parse_response at hr
  cases hd : decode (banking_extract_json raw) with
  | none => rw [hd] at hr; simp at hr
  | some v =>
    rw [hd] at hr
    dsimp only at hr
    cases hv : faqs_to_elems v with
    | error u => rw [hv] at hr; simp at hr
    | ok elems =>
      rw [hv] at hr
      dsimp only at hr
      cases hc : banking_clean_elems cat elems with
      | error u => rw [hc] at hr; simp at hr
      | ok recs =>
        rw [hc] at hr
        dsimp only at hr
        exact banking_clean_elems_keys cat elems recs hc r hr

/-- C2 witness: the theorem applied to the concrete parse above. -/
theorem C2_witness :
    (dlookup "question" c2_record).isSome = true ∧
    (dlookup "answer" c2_record).isSome = true :=
  C2_theorem.1 c2_decode "x" "Cat" c2_record (by
    rw [show banking_parse_response c2_decode "x" "Cat" = [c2_record] from rfl]
    exact List.mem_singleton_self c2_record)

/-- C3: for every decoder, raw response and category, when the
fence-stripped payload does not decode, both parsers return the empty
sequence; the embedded parse functions are total, so no exception escapes. -/
theorem C3_theorem :
    ∀ (decode : String → Option JVal) (raw cat : String),
      (decode (banking_extract_json raw) = none →
        banking_parse_response decode raw cat = []) ∧
      (decode (batch_extract_json raw) = none →
        batch_parse_response decode raw cat = []) := by
  intro decode raw cat
  constructor
  · intro h
    unfold banking_parse_response
    rw [h]
  · intro h
    unfold batch_parse_response
    rw [h]

/-- C4: for `batchSize ≥ 1` the scheduler issues exactly
`⌈totalCount / batchSize⌉` calls (the count is the least `n` with
`totalCount ≤ batchSize * n`), every `(batchIndex, batchCount)` pair
satisfies `1 ≤ batchIndex ≤ batchCount` with `batchCount` the call count,
the calls are in strictly increasing index order, and 25 records at batch
size 10 yield exactly the calls (1,3), (2,3), (3,3). -/
theorem C4_theorem :
    (∀ total batch : Nat,
      (generate_category_batched_calls batch total).length = total ⌈/⌉ batch) ∧
    (∀ total batch : Nat, 1 ≤ batch →
      total ≤ batch * (generate_category_batched_calls batch total).length ∧
      ∀ m : Nat, total ≤ batch * m →
        (generate_category_batched_calls batch total).length ≤ m) ∧
    (∀ total batch : Nat, ∀ p ∈ generate_category_batched_calls batch total,
      1 ≤ p.1 ∧ p.1 ≤ p.2 ∧
      p.2 = (generate_category_batched_calls batch total).length) ∧
    (∀ total batch : Nat,
      (generate_category_batched_calls batch total).Pairwise fun p q => p.1 < q.1) ∧
    generate_category_batched_calls 10 25 = [(1, 3), (2, 3), (3, 3)] := by
  have hlen : ∀ total batch : Nat,
      (generate_category_batched_calls batch total).length = total ⌈/⌉ batch := by
    intro total batch
    simp [generate_category_batched_calls, Nat.ceilDiv_eq_add_pred_div]
  refine ⟨hlen, ?_, ?_, ?_, by decide⟩
  · intro total batch hb
    constructor
    · rw [hlen]
      have := le_smul_ceilDiv (a := batch) (b := total) hb
      simpa [smul_eq_mul] using this
    · intro m hm
      rw [hlen]
      exact (ceilDiv_le_iff_le_smul (a := batch) (b := total) hb).2
        (by simpa [smul_eq_mul] using hm)
  · intro total batch p hp
    unfold generate_category_batched_calls at hp
    obtain ⟨i, hi, rfl⟩ := List.mem_map.1 hp
    rw [List.mem_range] at hi
    refine ⟨Nat.succ_le_succ (Nat.zero_le i), hi, ?_⟩
    simp [generate_category_batched_calls]
  · intro total batch
    unfold generate_category_batched_calls
    exact List.Pairwise.map _ (fun a b h => Nat.succ_lt_succ h)
      (List.pairwise_lt_range _)

/-- C5: for a decoded JSON array whose elements are objects with non-empty
`question`/`answer` strings, the banking parser keeps exactly one record
per element, in order; each record's `category` is overwritten with the
caller's category, `subcategory` defaults to the category, `keywords`,
`difficulty`, `segment` default to `[]`, `basic`, `retail` when absent and
are preserved when present, and `question`/`answer` pass through. -/
theorem C5_theorem :
    ∀ (decode : String → Option JVal) (raw cat : String) (elems : List JVal),
      decode (banking_extract_json raw) = some (JVal.list elems) →
      (∀ e ∈ elems, ∃ fs q a, e = JVal.obj fs ∧
        dlookup "question" fs = some (JVal.str q) ∧ q ≠ "" ∧
        dlookup "answer" fs = some (JVal.str a) ∧ a ≠ "") →
      List.Forall₂ (fun e r => ∃ fs, e = JVal.obj fs ∧ r = banking_fill fs cat ∧
          dlookup "category" r = some (JVal.str cat) ∧
          dlookup "subcategory" r = some ((dlookup "subcategory" fs).getD (JVal.str cat)) ∧
          dlookup "keywords" r = some ((dlookup "keywords" fs).getD (JVal.list [])) ∧
          dlookup "difficulty" r = some ((dlookup "difficulty" fs).getD (JVal.str "basic")) ∧
          dlookup "segment" r = some ((dlookup "segment" fs).getD (JVal.str "retail")) ∧
          dlookup "question" r = dlookup "question" fs ∧
          dlookup "answer" r = dlookup "answer" fs)
        elems (banking_parse_response decode raw cat) ∧
      (banking_parse_response decode raw cat).length = elems.length := by
  intro decode raw cat elems hdec hall
  have hall2 : ∀ e ∈ elems, ∃ fs, e = JVal.obj fs ∧
      (dlookup "question" fs).isSome = true ∧ (dlookup "answer" fs).isSome = true := by
    intro e he
    obtain ⟨fs, q, a, hfs, hq, _, ha, _⟩ := hall e he
    exact ⟨fs, hfs, by rw [hq]; rfl, by rw [ha]; rfl⟩
  obtain ⟨recs, hrecs, hf⟩ := banking_clean_elems_all cat elems hall2
  have hparse : banking_parse_response decode raw cat = recs := by
    unfold banking_parse_response
    rw [hdec]
    dsimp only [faqs_to_elems]
    rw [hrecs]
  rw [hparse]
  refine ⟨hf.imp ?_, hf.length_eq.symm⟩
  rintro e r ⟨fs, rfl, rfl⟩
  exact ⟨fs, rfl, rfl, banking_fill_category fs cat, banking_fill_subcategory fs cat,
    banking_fill_keywords fs cat, banking_fill_difficulty fs cat,
    banking_fill_segment fs cat, banking_fill_question fs cat, banking_fill_answer fs cat⟩

/-- C5 witness: the theorem applied to a one-element decoded array. -/
theorem C5_witness :
    List.Forall₂ (fun e r => ∃ fs, e = JVal.obj fs ∧ r = banking_fill fs "Cat" ∧
        dlookup "category" r = some (JVal.str "Cat") ∧
        dlookup "subcategory" r = some ((dlookup "subcategory" fs).getD (JVal.str "Cat")) ∧
        dlookup "keywords" r = some ((dlookup "keywords" fs).getD (JVal.list [])) ∧
        dlookup "difficulty" r = some ((dlookup "difficulty" fs).getD (JVal.str "basic")) ∧
        dlookup "segment" r = some ((dlookup "segment" fs).getD (JVal.str "retail")) ∧
        dlookup "question" r = dlookup "question" fs ∧
        dlookup "answer" r = dlookup "answer" fs)
      [JVal.obj [("question", JVal.str "Q?"), ("answer", JVal.str "An")]]
      (banking_parse_response c5_decode "x" "Cat") ∧
    (banking_parse_response c5_decode "x" "Cat").length = 1 :=
  C5_theorem c5_decode "x" "Cat"
    [JVal.obj [("question", JVal.str "Q?"), ("answer", JVal.str "An")]] rfl
    (by
      intro e he
      rw [List.mem_singleton] at he
      subst he
      exact ⟨[("question", JVal.str "Q?"), ("answer", JVal.str "An")], "Q?", "An",
        rfl, rfl, by decide, rfl, by decide⟩)

/-- C6: a record is counted valid exactly when it passes the structural
contract (required fields present and non-empty, `keywords` a list when
present, `difficulty`/`segment` in their enumerated sets when present) —
the valid/invalid tallies are the counts of that predicate, so warnings
never move them; and the scenario record (question `What is APR?`,
150-character answer, difficulty `extreme`, category `Loans`) yields
total=1, valid=0, invalid=1 with the single error
`FAQ #1: Invalid difficulty 'extreme'`. -/
theorem C6_theorem :
    (∀ (faq : PyDict) (idx : Nat) (r : SingleResult),
      validate_single_faq faq idx = .ok r → r.isValid = spec_structural_ok faq) ∧
    (∀ (faqs : List PyDict) (b : Bool) (st1 : ValidatorState),
      validate_faqs init_validator_state faqs = .ok (b, st1) →
      st1.stats.total = faqs.length ∧
      st1.stats.valid = faqs.countP spec_structural_ok ∧
      st1.stats.invalid = faqs.countP fun f => !spec_structural_ok f) ∧
    validate_faqs init_validator_state [c6_faq] =
      .ok (false, ⟨["FAQ #1: Invalid difficulty \x27extreme\x27"], [], ⟨1, 0, 1, 0⟩⟩) := by
  refine ⟨fun faq idx r h => validate_single_faq_isValid faq idx r h, ?_, rfl⟩
  intro faqs b st1 h
  unfold validate_faqs at h
  dsimp only at h
  rw [validate_faqs_go_eq_deltas] at h
  cases hd : validate_deltas faqs 1 with
  | error u => rw [hd] at h; cases h
  | ok rs =>
    rw [hd] at h
    dsimp only [Except.map] at h
    cases h
    obtain ⟨h1, h2, _⟩ := validate_deltas_isValid faqs 1 rs hd
    refine ⟨?_, ?_, ?_⟩
    · rw [foldl_apply_single_total]
    · rw [foldl_apply_single_valid, h1]
      simp [init_validator_state]
    · rw [foldl_apply_single_invalid, h2]
      simp [init_validator_state]

/-- C6 witness: the theorem's count clause applied to the scenario run. -/
theorem C6_witness :
    (⟨["FAQ #1: Invalid difficulty \x27extreme\x27"], [],
        ⟨1, 0, 1, 0⟩⟩ : ValidatorState).stats.total = 1 ∧
    (⟨["FAQ #1: Invalid difficulty \x27extreme\x27"], [],
        ⟨1, 0, 1, 0⟩⟩ : ValidatorState).stats.valid =
      [c6_faq].countP spec_structural_ok ∧
    (⟨["FAQ #1: Invalid difficulty \x27extreme\x27"], [],
        ⟨1, 0, 1, 0⟩⟩ : ValidatorState).stats.invalid =
      [c6_faq].countP fun f => !spec_structural_ok f :=
  C6_theorem.2.1 [c6_faq] false
    ⟨["FAQ #1: Invalid difficulty \x27extreme\x27"], [], ⟨1, 0, 1, 0⟩⟩ rfl

/-- C7: the repetitive-content check splits the answer on runs of
sentence-terminal punctuation; with fewer than 3 fragments it is skipped
(never warns); with at least 3 it warns exactly when the most frequent
normalized fragment's share of all fragments exceeds 3/10; the
four-of-five repeated answer triggers it and five distinct sentences do
not. -/
theorem C7_theorem :
    (∀ text : String, (re_split_sentences text).length < 3 →
      has_repetitive_content text = false) ∧
    (∀ text : String, 3 ≤ (re_split_sentences text).length →
      (has_repetitive_content text = true ↔
        (3 : ℚ) / 10 <
          (max_sentence_count (re_split_sentences text) : ℚ) /
            ((re_split_sentences text).length : ℚ))) ∧
    has_repetitive_content c7_repeated = true ∧
    has_repetitive_content c7_distinct = false := by
  refine ⟨?_, ?_, by decide, by decide⟩
  · intro text h
    unfold has_repetitive_content
    simp [h]
  · intro text h3
    unfold has_repetitive_content
    rw [if_neg (by omega)]
    have hn : (0 : ℚ) < ((re_split_sentences text).length : ℚ) := by
      have : 0 < (re_split_sentences text).length := by omega
      exact_mod_cast this
    rw [div_lt_div_iff₀ (by norm_num) hn, decide_eq_true_eq]
    constructor
    · intro h
      have : ((3 * (re_split_sentences text).length : ℕ) : ℚ) <
          ((max_sentence_count (re_split_sentences text) * 10 : ℕ) : ℚ) := by
        exact_mod_cast (by omega : 3 * (re_split_sentences text).length <
          max_sentence_count (re_split_sentences text) * 10)
      calc (3 : ℚ) * ((re_split_sentences text).length : ℚ)
          = ((3 * (re_split_sentences text).length : ℕ) : ℚ) := by push_cast; ring
        _ < ((max_sentence_count (re_split_sentences text) * 10 : ℕ) : ℚ) := this
        _ = (max_sentence_count (re_split_sentences text) : ℚ) * 10 := by push_cast; ring
    · intro h
      have h2 : ((3 * (re_split_sentences text).length : ℕ) : ℚ) <
          ((max_sentence_count (re_split_sentences text) * 10 : ℕ) : ℚ) := by
        calc ((3 * (re_split_sentences text).length : ℕ) : ℚ)
            = (3 : ℚ) * ((re_split_sentences text).length : ℚ) := by push_cast; ring
          _ < (max_sentence_count (re_split_sentences text) : ℚ) * 10 := h
          _ = ((max_sentence_count (re_split_sentences text) * 10 : ℕ) : ℚ) := by
              push_cast; ring
      have := Nat.cast_lt (α := ℚ) |>.1 h2
      omega

/-- C8 counterexample: re-running `validate_faqs` on the same validator
instance does not reproduce the report — the valid tally accumulates from
1 to 2, so the second report differs from the first. -/
theorem C8_counterexample :
    validate_faqs init_validator_state [c8_faq] =
      .ok (true, ⟨[], [], ⟨1, 1, 0, 0⟩⟩) ∧
    validate_faqs (⟨[], [], ⟨1, 1, 0, 0⟩⟩ : ValidatorState) [c8_faq] =
      .ok (true, ⟨[], [], ⟨1, 2, 0, 0⟩⟩) ∧
    (⟨[], [], ⟨1, 2, 0, 0⟩⟩ : ValidatorState) ≠ ⟨[], [], ⟨1, 1, 0, 0⟩⟩ := by
  refine ⟨rfl, rfl, ?_⟩
  decide

/-- C8 (amended): the report produced by `validate_faqs` is a pure
function of the input and of the instance's prior accumulated state — a
fresh validator is deterministic on equal inputs, while a run on a used
instance appends the fresh run's errors/warnings to the old ones and adds
its valid/invalid/warning tallies instead of reproducing the identical
report (only `total` is overwritten). -/
theorem C8_theorem :
    ∀ (st : ValidatorState) (faqs : List PyDict) (b : Bool) (stf : ValidatorState),
      validate_faqs st faqs = .ok (b, stf) →
      ∃ bf frf, validate_faqs init_validator_state faqs = .ok (bf, frf) ∧
        stf.errors = st.errors ++ frf.errors ∧
        stf.warnings = st.warnings ++ frf.warnings ∧
        stf.stats.total = faqs.length ∧
        frf.stats.total = faqs.length ∧
        stf.stats.valid = st.stats.valid + frf.stats.valid ∧
        stf.stats.invalid = st.stats.invalid + frf.stats.invalid ∧
        stf.stats.warnings = st.stats.warnings + frf.stats.warnings := by
  intro st faqs b stf h
  unfold validate_faqs at h ⊢
  dsimp only at h ⊢
  rw [validate_faqs_go_eq_deltas] at h
  rw [validate_faqs_go_eq_deltas]
  cases hd : validate_deltas faqs 1 with
  | error u => rw [hd] at h; cases h
  | ok rs =>
    rw [hd] at h
    dsimp only [Except.map] at h ⊢
    cases h
    refine ⟨_, _, rfl, ?_, ?_, ?_, ?_, ?_, ?_, ?_⟩
    · rw [foldl_apply_single_errors, foldl_apply_single_errors]
      simp [init_validator_state]
    · rw [foldl_apply_single_warnings, foldl_apply_single_warnings]
      simp [init_validator_state]
    · rw [foldl_apply_single_total]
    · rw [foldl_apply_single_total]
    · rw [foldl_apply_single_valid, foldl_apply_single_valid]
      simp [init_validator_state]
    · rw [foldl_apply_single_invalid, foldl_apply_single_invalid]
      simp [init_validator_state]
    · rw [foldl_apply_single_warncount, foldl_apply_single_warncount]
      simp [init_validator_state]

/-- C8 witness: the theorem applied to the used instance left by a first
run over `[c8_faq]`, exhibiting the accumulated second report. -/
theorem C8_witness :
    validate_faqs (⟨[], [], ⟨1, 1, 0, 0⟩⟩ : ValidatorState) [c8_faq] =
      .ok (true, ⟨[], [], ⟨1, 2, 0, 0⟩⟩) ∧
    ∃ bf frf, validate_faqs init_validator_state [c8_faq] = .ok (bf, frf) ∧
      (⟨[], [], ⟨1, 2, 0, 0⟩⟩ : ValidatorState).stats.valid = 1 + frf.stats.valid := by
  refine ⟨rfl, ?_⟩
  obtain ⟨bf, frf, h1, _, _, _, _, hv, _, _⟩ :=
    C8_theorem ⟨[], [], ⟨1, 1, 0, 0⟩⟩ [c8_faq] true ⟨[], [], ⟨1, 2, 0, 0⟩⟩ rfl
  exact ⟨bf, frf, h1, hv⟩

/-- C9: an answer whose length is exactly 100 characters yields no
answer-length warning while one of 99 characters yields exactly the
too-short warning; end to end, the 100-character record validates with an
empty warning list and the 99-character record with exactly one warning,
`FAQ #1: Answer too short (99 chars)`, both counted valid. -/
theorem C9_theorem :
    (∀ (idx : Nat) (answer : String), answer.length = 100 →
      answer_length_warnings idx answer = []) ∧
    (∀ (idx : Nat) (answer : String), answer.length = 99 →
      answer_length_warnings idx answer = [msg_a_short idx 99]) ∧
    validate_faqs init_validator_state [c9_faq100] =
      .ok (true, ⟨[], [], ⟨1, 1, 0, 0⟩⟩) ∧
    validate_faqs init_validator_state [c9_faq99] =
      .ok (true, ⟨[], ["FAQ #1: Answer too short (99 chars)"], ⟨1, 1, 0, 1⟩⟩) := by
  refine ⟨?_, ?_, rfl, rfl⟩
  · intro idx answer h
    unfold answer_length_warnings
    rw [h]
    norm_num [MIN_ANSWER_LENGTH, MAX_ANSWER_LENGTH]
  · intro idx answer h
    unfold answer_length_warnings
    rw [h]
    norm_num [MIN_ANSWER_LENGTH]

/-- C10: a decoded element whose `question`/`answer` values are numbers is
accepted by the banking parser (only key presence is tested) and both
values are truthy, but `validate_faqs` then raises on `.strip()` —
validation of the whole record set aborts instead of returning a report. -/
theorem C10_theorem :
    banking_parse_response c10_decode "x" "Cards" = [c10_record] ∧
    truthy (JVal.num 5) = true ∧
    truthy (JVal.num 7) = true ∧
    validate_faqs init_validator_state [c10_record] = .error () :=
  ⟨rfl, rfl, rfl, rfl⟩
